import Mathlib

/-!
# better-edenred: login, transaction fetch and orchestration

A shallow embedding of `edenred/scapper.go` and `main.go`.

* Go's `error` is `Option String` (`none` is `nil`, `some s` an error whose
  `Error()` text is `s`); a Go function returning `(v, err)` returns the pair,
  because the code does return a value next to a non-nil error.
* Side effects are recorded as a list of `Event`s, in program order.
* What the standard library and the network do is not part of the repository:
  it is passed in as `Lib` (JSON encoding and decoding) and `Env` (environment
  variables, the HTTP round trip), and the general theorems quantify over them.
-/

namespace BetterEdenred

/-! ## Data model (scapper.go 17-96) -/

/-- BaseURL, the provider's base url (scapper.go 22). -/
def BaseURL : String := "https://www.myedenred.pt/edenred-customer/api"

/-- User agent sent with both requests (scapper.go 133, 169). -/
def UserAgent : String :=
  "Mozilla/5.0 (X11; Linux x86_64; rv:73.0) Gecko/20100101 Firefox/73.0"

/-- Go `float64`, finite values only (the JSON decoder stores no other): the
binary number `mant * 2 ^ exp`. In normal form `2 ^ 52 ≤ |mant| < 2 ^ 53` with
`-1074 ≤ exp ≤ 971`, or `|mant| < 2 ^ 52` with `exp = -1074` (subnormal); zero
is `mant = 0`, `exp = 0`, which is the Go zero value. Negative zero is not
told apart from zero. -/
structure Float64 where
  mant : Int := 0
  exp : Int := 0
  deriving DecidableEq, Repr

/-- Go `interface{}` as filled by the JSON decoder. The zero value is `null`
(a nil interface). -/
inductive Any where
  | null : Any
  | bool (b : Bool) : Any
  | num (f : Float64) : Any
  | str (s : String) : Any
  | arr (xs : List Any) : Any
  | obj (kvs : List (String × Any)) : Any

/-- LoginReq, the login request (scapper.go 26-29). -/
structure LoginReq where
  UserID : String := ""
  Password : String := ""
  deriving DecidableEq, Repr

/-- Customer profile nested in LoginRes (scapper.go 36-55). -/
structure Customer where
  ID : Int := 0
  RegVersion : Int := 0
  Name : String := ""
  BirthDate : Any := Any.null
  CellPhoneNumber : String := ""
  WorkPostalCode : Int := 0
  ResidencePostalCode : Int := 0
  Gender : String := ""
  EmailStatus : String := ""
  WorkPlace : Any := Any.null
  ResidencePlace : Any := Any.null
  RegisterStatus : String := ""
  LatCoordinateWork : Any := Any.null
  LngCoordinateWork : Any := Any.null
  LatCoordinateResidence : Any := Any.null
  LngCoordinateResidence : Any := Any.null
  PasswordStatus : String := ""
  Email : String := ""

/-- The `data` member of LoginRes (scapper.go 33-56). -/
structure LoginData where
  Token : String := ""
  OnBoardApplied : Bool := false
  Customer : Customer := {}

/-- LoginRes, the login response (scapper.go 32-58). Every field default is
the Go zero value, which is what a field absent from the body keeps. -/
structure LoginRes where
  Data : LoginData := {}
  Message : List Any := []

/-- Category descriptor of a movement (scapper.go 83-86). -/
structure Category where
  ID : Int := 0
  Description : String := ""

/-- Movement, one transaction (scapper.go 77-89). -/
structure Movement where
  TransactionDate : String := ""
  TransactionType : Int := 0
  TransactionName : String := ""
  Amount : Float64 := {}
  Mcc : String := ""
  Category : Category := {}
  CategoryID : Any := Any.null
  Balance : Float64 := {}

/-- The `data.account` member of TxMsg (scapper.go 63-70). -/
structure Account where
  Iban : Any := Any.null
  CardNumber : String := ""
  AvailableBalance : Float64 := {}
  CardHolderFirstName : String := ""
  CardHolderLastName : String := ""
  CardActivated : Bool := false

/-- The `data` member of TxMsg (scapper.go 62-72). -/
structure TxData where
  Account : Account := {}
  MovementList : List Movement := []

/-- TxMsg, the response carrying all transaction data (scapper.go 61-74). -/
structure TxMsg where
  Data : TxData := {}
  Message : List String := []

/-- Edenred, the API client (scapper.go 92-96); the unused `client` field is
left out. -/
structure Edenred where
  Username : String
  Password : String
  deriving DecidableEq, Repr

/-- New returns a new client (scapper.go 99-104). -/
def New (u p : String) : Edenred :=
  { Username := u, Password := p }

/-! ## HTTP, logging and the decimal library -/

/-- An outgoing `http.Request`: method, url, headers in the order set, and the
body bytes (`none` for a nil body). -/
structure Request where
  Method : String
  URL : String
  Header : List (String × String) := []
  Body : Option String := none
  deriving DecidableEq, Repr

/-- Models `req.Header.Set`: replaces the values of the key. -/
def Request.setHeader (r : Request) (k v : String) : Request :=
  { r with Header := (r.Header.filter (fun kv => kv.1 != k)) ++ [(k, v)] }

/-- What the code reads of an `http.Response`. -/
structure Response where
  StatusCode : Int
  Body : String
  deriving DecidableEq, Repr

/-- The `http.Client` that GetHTTPTransport builds (scapper.go 222-242),
durations in seconds. -/
structure Client where
  ProxyFromEnvironment : Bool
  DialTimeout : Nat
  DialKeepAlive : Nat
  InsecureSkipVerify : Bool
  TLSHandshakeTimeout : Nat
  ExpectContinueTimeout : Nat
  HasCookieJar : Bool
  deriving DecidableEq, Repr

/-- GetHTTPTransport, the http client setup (scapper.go 222-242). -/
def GetHTTPTransport : Client :=
  { ProxyFromEnvironment := true
    DialTimeout := 5
    DialKeepAlive := 2
    InsecureSkipVerify := false
    TLSHandshakeTimeout := 5
    ExpectContinueTimeout := 1
    HasCookieJar := true }

/-- Levels of the logrus calls the program makes. -/
inductive Level where
  | error : Level
  | info : Level
  deriving DecidableEq, Repr

/-- Observable steps of a run, in program order. -/
inductive Event where
  /-- Call of `edenred.New(u, p)` (main.go 31). -/
  | newClient (u p : String) : Event
  /-- Call of `GetHTTPTransport()` (scapper.go 203). -/
  | newTransport : Event
  /-- Call of `client.Do(req)`. -/
  | http (req : Request) : Event
  /-- Call of `fmt.Println(line)`: one line on standard output. -/
  | stdout (line : String) : Event
  /-- A logrus record: level, fields, message. -/
  | log (lvl : Level) (fields : List (String × String)) (msg : String) : Event
  deriving DecidableEq, Repr

/-- The `decimal.Decimal` of shopspring: `value * 10 ^ exp`. The Go zero value
`Decimal{}` has a nil `value`, which the library reads as `0`. -/
structure Decimal where
  value : Int := 0
  exp : Int := 0
  deriving DecidableEq, Repr

/-- Models `decimal.New(value, exp)`. -/
def Decimal.New (value : Int) (exp : Int) : Decimal :=
  { value := value, exp := exp }

/-- Models `Decimal.Cmp`: both sides rescaled to the smaller exponent, then
compared as integers. -/
def Decimal.Cmp (d d2 : Decimal) : Ordering :=
  compare (d.value * 10 ^ (d.exp - min d.exp d2.exp).toNat)
    (d2.value * 10 ^ (d2.exp - min d.exp d2.exp).toNat)

/-- Models `Decimal.Equal`: equality as numbers. -/
def Decimal.Equal (d d2 : Decimal) : Bool :=
  d.Cmp d2 == Ordering.eq

/-- Number of binary digits of a natural number, by halving; the first
argument bounds the number of steps. -/
def bitLengthAux : Nat → Nat → Nat
  | 0, _ => 0
  | fuel + 1, n => if n = 0 then 0 else bitLengthAux fuel (n / 2) + 1

/-- Number of binary digits of a natural number. -/
def bitLength (n : Nat) : Nat := bitLengthAux n n

/-- Models `strconv.ParseFloat(s, 64)` on the JSON number `digits * 10 ^ exp10`,
which is how the decoder fills a float64 field: the nearest float64, ties to
the even mantissa; `none` when the number is out of range, which the decoder
reports as an error. -/
def ParseFloat (digits : Int) (exp10 : Int) : Option Float64 :=
  if digits = 0 then some {} else
    let a := digits.natAbs
    let num := if 0 ≤ exp10 then a * 10 ^ exp10.toNat else a
    let den := if 0 ≤ exp10 then 1 else 10 ^ (-exp10).toNat
    let l : Int := (bitLength num : Int) - (bitLength den : Int)
    let reaches := if 0 ≤ l then den * 2 ^ l.toNat ≤ num else den ≤ num * 2 ^ (-l).toNat
    let fl := if reaches then l else l - 1
    let e := max (fl - 52) (-1074)
    let n := if 0 ≤ e then num else num * 2 ^ (-e).toNat
    let d := if 0 ≤ e then den * 2 ^ e.toNat else den
    let q := n / d
    let r := n % d
    let m := if d < 2 * r ∨ (2 * r = d ∧ q % 2 = 1) then q + 1 else q
    let m2 := if m = 2 ^ 53 then 2 ^ 52 else m
    let e2 := if m = 2 ^ 53 then e + 1 else e
    if m2 = 0 then some {}
    else if 971 < e2 then none
    else some { mant := if digits < 0 then -(m2 : Int) else (m2 : Int), exp := e2 }

/-- The digit walk of `roundShortest`, on naturals scaled by a common power of
ten: `v` is the float, `lower` and `upper` the halfway points to its
neighbours, which are themselves admissible when `inclusive`. Going from the
leading digit down, stops at the first position `j` where `v` cut to a
multiple of `10 ^ j`, or that plus `10 ^ j`, rounds back to the float, taking
the nearer when both do (the even digit on a tie). Returns the multiple and
`j`. -/
def shortestSearch (v lower upper : Nat) (inclusive : Bool) : Nat → Nat × Nat
  | 0 => (v, 0)
  | j + 1 =>
    let unit := 10 ^ (j + 1)
    let down := v / unit * unit
    let up := down + unit
    let okdown := lower < down || (inclusive && down == lower)
    let okup := up < upper || (inclusive && up == upper)
    if okdown && okup then
      if v - down < up - v then (down, j + 1)
      else if up - v < v - down then (up, j + 1)
      else if (v / unit) % 2 = 0 then (down, j + 1) else (up, j + 1)
    else if okdown then (down, j + 1)
    else if okup then (up, j + 1)
    else shortestSearch v lower upper inclusive j

/-- Moves trailing decimal zeros of `c` into the exponent `k`; the first
argument bounds the number of steps. -/
def dropDecimalZeros : Nat → Nat → Int → Nat × Int
  | 0, c, k => (c, k)
  | fuel + 1, c, k =>
    if c ≠ 0 ∧ c % 10 = 0 then dropDecimalZeros fuel (c / 10) (k + 1) else (c, k)

/-- Models `decimal.NewFromFloat` on a float in normal form: `New(0, 0)` for
zero, else the shortest decimal that rounds back to the same float64
(`roundShortest`), as digits and exponent. The float, the halfway point
`upper` to the next float and the halfway point `lower` to the previous one
(nearer by half when the mantissa is `2 ^ 52`) are scaled by `10 ^ s` to
naturals. -/
def Decimal.NewFromFloat (f : Float64) : Decimal :=
  if f.mant = 0 then { value := 0, exp := 0 } else
    let a := f.mant.natAbs
    let s := (2 - f.exp).toNat
    let scale := 2 ^ (f.exp - 2 + s).toNat * 5 ^ s
    let v := 4 * a * scale
    let upper := (4 * a + 2) * scale
    let lower :=
      if a = 2 ^ 52 ∧ -1074 < f.exp then (4 * a - 1) * scale else (4 * a - 2) * scale
    let nd := (Nat.toDigits 10 v).length
    let found := shortestSearch v lower upper (a % 2 == 0) (nd - 1)
    let trimmed := dropDecimalZeros nd (found.1 / 10 ^ found.2) ((found.2 : Int) - s)
    { value := if f.mant < 0 then -(trimmed.1 : Int) else (trimmed.1 : Int),
      exp := trimmed.2 }

/-- Drops the trailing `'0'` characters of a digit string. -/
def trimTrailingZeros (s : List Char) : List Char :=
  (s.reverse.dropWhile (fun c => c == '0')).reverse

/-- Models `Decimal.String`: plain decimal notation, trailing fractional zeros trimmed. -/
def Decimal.String (d : Decimal) : String :=
  if 0 ≤ d.exp then
    toString (d.value * 10 ^ d.exp.toNat)
  else
    let str := (toString d.value.natAbs).toList
    let n := (-d.exp).toNat
    let intPart := if n < str.length then str.take (str.length - n) else ['0']
    let fractionalPart :=
      if n < str.length then str.drop (str.length - n)
      else List.replicate (n - str.length) '0' ++ str
    let frac := trimTrailingZeros fractionalPart
    let number := if frac.isEmpty then intPart else intPart ++ ['.'] ++ frac
    String.mk (if d.value < 0 then '-' :: number else number)

/-- What the JSON library does, which the repository does not define. -/
structure Lib where
  /-- Models `enc.Encode(&loginReq)` with HTML escaping off: the bytes written. A
  struct of two strings written to a `bytes.Buffer` cannot fail. -/
  encodeLoginReq : LoginReq → String
  /-- Models `json.NewDecoder(body).Decode(&loginRes)` into a zero LoginRes. -/
  decodeLoginRes : String → Except String LoginRes
  /-- Models `json.NewDecoder(body).Decode(&txList)` into a zero TxMsg. -/
  decodeTxMsg : String → Except String TxMsg
  /-- Models `json.Marshal(m)` on a movement. -/
  marshalMovement : Movement → Except String String

/-- The process environment and the network. -/
structure Env where
  /-- Models `os.Getenv`: the empty string for an unset variable. -/
  Getenv : String → String
  /-- Models `client.Do(req)`: a transport error or the response. -/
  Do : Client → Request → Except String Response

/-! ## Operations (scapper.go 106-219, main.go 13-39) -/

/-- What a Go function returning `(val, err)` hands back, with the events it
caused. -/
structure Result (α : Type) where
  val : α
  err : Option String
  events : List Event

/-- The login request that doLogin builds (scapper.go 113-134). `http.NewRequest`
with a constant valid method and url cannot fail. -/
def loginRequest (lib : Lib) (e : Edenred) : Request :=
  let loginReq : LoginReq := { UserID := e.Username, Password := e.Password }
  let loginURL := BaseURL ++ "/authenticate/default?appVersion=1.0&appType=PORTAL&channel=WEB"
  let buf := lib.encodeLoginReq loginReq
  let req : Request := { Method := "POST", URL := loginURL, Body := some buf }
  let req := req.setHeader "User-Agent" UserAgent
  req.setHeader "Content-Type" "application/json"

/-- Edenred.doLogin (scapper.go 106-153). -/
def doLogin (env : Env) (lib : Lib) (e : Edenred) (client : Client) : Result String :=
  let auth : String := ""
  let req := loginRequest lib e
  match env.Do client req with
  | .error err =>
    { val := auth, err := some ("error executing request: " ++ err), events := [Event.http req] }
  | .ok res =>
    if res.StatusCode ≠ 200 then
      { val := auth, err := some ("error from API: " ++ toString res.StatusCode),
        events := [Event.http req] }
    else
      match lib.decodeLoginRes res.Body with
      | .error err =>
        { val := auth, err := some ("error decoding json: " ++ err), events := [Event.http req] }
      | .ok loginRes =>
        let auth := loginRes.Data.Token
        { val := auth, err := none, events := [Event.http req] }

/-- The transactions request that getTransactions builds (scapper.go 162-171).
As in loginRequest, `http.NewRequest` with a constant valid method and url
cannot fail. -/
def txRequest (authorization : String) : Request :=
  let txURL := BaseURL ++ "/protected/card/537781/accountmovement"
  let req : Request := { Method := "GET", URL := txURL, Body := none }
  let req := req.setHeader "User-Agent" UserAgent
  let req := req.setHeader "Content-Type" "application/json"
  req.setHeader "Authorization" authorization

/-- The loop of getTransactions (scapper.go 182-190). It assigns the function's
named result `err` at every iteration: the first component is `err` after the
loop, started from the value `err` has before it. -/
def printMovements (lib : Lib) : List Movement → Option String → Option String × List Event
  | [], err => (err, [])
  | m :: ms, _ =>
    match lib.marshalMovement m with
    | .error err =>
      let rest := printMovements lib ms (some err)
      (rest.1, Event.log Level.error [("error", err)] "error marshalling" :: rest.2)
    | .ok movementBty =>
      let rest := printMovements lib ms none
      (rest.1, Event.stdout movementBty :: rest.2)

/-- Edenred.getTransactions (scapper.go 155-193). -/
def getTransactions (env : Env) (lib : Lib) (client : Client) (authorization : String) :
    Result Decimal :=
  let req := txRequest authorization
  match env.Do client req with
  | .error err =>
    { val := {}, err := some ("error executing request: " ++ err), events := [Event.http req] }
  | .ok res =>
    match lib.decodeTxMsg res.Body with
    | .error err =>
      { val := {}, err := some ("error decoding json: " ++ err), events := [Event.http req] }
    | .ok txList =>
      let loop := printMovements lib txList.Data.MovementList none
      { val := Decimal.NewFromFloat txList.Data.Account.AvailableBalance,
        err := loop.1,
        events := Event.http req :: loop.2 }

/-- Edenred.CheckBalance (scapper.go 196-219); it returns only `err`. -/
def CheckBalance (env : Env) (lib : Lib) (e : Edenred) : Result Unit :=
  let client := GetHTTPTransport
  let login := doLogin env lib e client
  match login.err with
  | some err =>
    { val := (), err := some err,
      events := Event.newTransport :: login.events ++
        [Event.log Level.error [("error", err)] "error logging in"] }
  | none =>
    let authorization := login.val
    let tx := getTransactions env lib client authorization
    match tx.err with
    | some err =>
      { val := (), err := some err,
        events := Event.newTransport :: login.events ++
          [Event.log Level.info [] "logged in"] ++ tx.events }
    | none =>
      let balance := tx.val
      { val := (), err := none,
        events := Event.newTransport :: login.events ++
          [Event.log Level.info [] "logged in"] ++ tx.events ++
          [Event.log Level.info [("balance", balance.String)] "retrieved all transactions"] }

/-- How a run of the program ends: what it did and the process exit status. -/
structure Outcome where
  events : List Event
  exitCode : Nat
  deriving DecidableEq, Repr

/-- The program entry point (main.go 13-39). Every path leaves by returning
from `main`, which ends a Go process with status 0; the program has no
`os.Exit` and no fatal-level log call. The local `balance` is declared and
never assigned. -/
def main (env : Env) (lib : Lib) : Outcome :=
  let balance : Decimal := {}
  let starting := Event.log Level.info [] "[observer][edenred] starting"
  let username := env.Getenv "USER"
  let password := env.Getenv "PASS"
  if username = "" ∨ password = "" then
    { events := [starting, Event.log Level.error [] "error: USER or PASS not set"],
      exitCode := 0 }
  else
    let clientEden := New username password
    let check := CheckBalance env lib clientEden
    match check.err with
    | some err =>
      { events := starting :: Event.newClient username password :: check.events ++
          [Event.log Level.error [("error", err)]
            "[observer][edenred] error processing balance"],
        exitCode := 0 }
    | none =>
      { events := starting :: Event.newClient username password :: check.events ++
          [Event.log Level.info []
            ("[observer][edenred] current balance for Edenred Meal card" ++ " " ++
              balance.String)],
        exitCode := 0 }

/-! ## Reading a trace -/

/-- The lines written to standard output, in order. -/
def stdoutLines : List Event → List String
  | [] => []
  | Event.stdout line :: es => line :: stdoutLines es
  | _ :: es => stdoutLines es

/-- The requests handed to `client.Do`, in order. -/
def httpRequests : List Event → List Request
  | [] => []
  | Event.http req :: es => req :: httpRequests es
  | _ :: es => httpRequests es

/-- The messages of the log records, in order. -/
def logMessages : List Event → List String
  | [] => []
  | Event.log _ _ msg :: es => msg :: logMessages es
  | _ :: es => logMessages es

/-- The event one movement causes in the loop: its line on standard output,
or the error record when it does not serialize. -/
def movementEvent (lib : Lib) (m : Movement) : Event :=
  match lib.marshalMovement m with
  | .error err => Event.log Level.error [("error", err)] "error marshalling"
  | .ok movementBty => Event.stdout movementBty

/-- The serialization of a movement, when it has one. -/
def serialized (lib : Lib) (m : Movement) : Option String :=
  match lib.marshalMovement m with
  | .error _ => none
  | .ok movementBty => some movementBty

/-- The error `json.Marshal` gives for a movement, when it gives one. -/
def marshalError (lib : Lib) (m : Movement) : Option String :=
  match lib.marshalMovement m with
  | .error err => some err
  | .ok _ => none

/-! ## Sample inputs

Bodies and library answers used to run the model on concrete inputs. The
answers of `sampleLib` are those of `encoding/json` on these bodies and
values. `failingLib` is not: it simulates a `json.Marshal` failure, which
`encoding/json` does not produce for a movement filled by the decoder. -/

/-- Body: `{"data":{"token":"tok-1"}}`. -/
def bodyToken : String := "\x7b\"data\":\x7b\"token\":\"tok-1\"\x7d\x7d"

/-- Body: `{"data":{}}`, a login answer without a token. -/
def bodyNoToken : String := "\x7b\"data\":\x7b\x7d\x7d"

/-- Body: `{}`. -/
def bodyEmptyObject : String := "\x7b\x7d"

/-- Body: `{"data":` cut short, which is not JSON. -/
def bodyTruncated : String := "\x7b\"data\":"

/-- Body: balance 123.45 and the movements `A`, `B`. -/
def bodyTwoMovements : String :=
  "\x7b\"data\":\x7b\"account\":\x7b\"availableBalance\":123.45\x7d,\"movementList\":[" ++
  "\x7b\"transactionName\":\"A\"\x7d,\x7b\"transactionName\":\"B\"\x7d]\x7d\x7d"

/-- Body: balance 123.45 and the movements `A`, `B`, `C`. -/
def bodyThreeMovements : String :=
  "\x7b\"data\":\x7b\"account\":\x7b\"availableBalance\":123.45\x7d,\"movementList\":[" ++
  "\x7b\"transactionName\":\"A\"\x7d,\x7b\"transactionName\":\"B\"\x7d," ++
  "\x7b\"transactionName\":\"C\"\x7d]\x7d\x7d"

/-- Body: balance 9007199254740993, which is `2 ^ 53 + 1`, and no movement. -/
def bodyLargeBalance : String :=
  "\x7b\"data\":\x7b\"account\":\x7b\"availableBalance\":9007199254740993\x7d," ++
  "\"movementList\":[]\x7d\x7d"

/-- A movement with a name and every other field zero. -/
def namedMovement (name : String) : Movement := { TransactionName := name }

/-- The transactions message with the given balance and the named movements. -/
def sampleTx (balance : Float64) (names : List String) : TxMsg :=
  { Data := { Account := { AvailableBalance := balance },
              MovementList := names.map namedMovement } }

/-- What the decoder makes of a body whose `availableBalance` is the JSON
number `digits * 10 ^ exp10` and whose movements carry only the given names. -/
def decodedTx (digits exp10 : Int) (names : List String) : Except String TxMsg :=
  match ParseFloat digits exp10 with
  | some balance => .ok (sampleTx balance names)
  | none => .error "json: cannot unmarshal number into Go struct field of type float64"

/-- The line `json.Marshal` gives for `namedMovement name`, for a name that
needs no escaping. -/
def sampleLine (name : String) : String :=
  "\x7b\"transactionDate\":\"\",\"transactionType\":0,\"transactionName\":\"" ++ name ++
  "\",\"amount\":0,\"mcc\":\"\",\"category\":\x7b\"id\":0,\"description\":\"\"\x7d," ++
  "\"categoryId\":null,\"balance\":0\x7d"

/-- Sample library answers. -/
def sampleLib : Lib where
  encodeLoginReq r :=
    "\x7b\"userId\":\"" ++ r.UserID ++ "\",\"password\":\"" ++ r.Password ++ "\"\x7d\n"
  decodeLoginRes body :=
    if body = bodyToken then .ok { Data := { Token := "tok-1" } }
    else if body = bodyNoToken then .ok {}
    else if body = bodyEmptyObject then .ok {}
    else .error "unexpected EOF"
  decodeTxMsg body :=
    if body = bodyEmptyObject then .ok {}
    else if body = bodyTwoMovements then decodedTx 12345 (-2) ["A", "B"]
    else if body = bodyThreeMovements then decodedTx 12345 (-2) ["A", "B", "C"]
    else if body = bodyLargeBalance then decodedTx 9007199254740993 0 []
    else .error "unexpected EOF"
  marshalMovement m := .ok (sampleLine m.TransactionName)

/-- The sample library with a serializer made to fail on the movement named
`bad`: the simulated serialization failure. -/
def failingLib (bad : String) : Lib :=
  { sampleLib with
    marshalMovement := fun m =>
      if m.TransactionName = bad then .error "simulated marshal failure"
      else sampleLib.marshalMovement m }

/-- An environment with the given credentials, answering the login request
(the POST) with `login` and the transactions request with `tx`. -/
def sampleEnv (user pass : String) (login tx : Except String Response) : Env where
  Getenv k := if k = "USER" then user else if k = "PASS" then pass else ""
  Do _ req := if req.Method = "POST" then login else tx

/-! ## The loop of getTransactions -/

theorem printMovements_events (lib : Lib) (ms : List Movement) (err : Option String) :
    (printMovements lib ms err).2 = ms.map (movementEvent lib) := by
  induction ms generalizing err with
  | nil => rfl
  | cons m ms ih =>
    cases h : lib.marshalMovement m with
    | error e => simp [printMovements, movementEvent, h, ih]
    | ok b => simp [printMovements, movementEvent, h, ih]

theorem printMovements_err_append (lib : Lib) (ms : List Movement) (m : Movement)
    (err : Option String) :
    (printMovements lib (ms ++ [m]) err).1 = marshalError lib m := by
  induction ms generalizing err with
  | nil =>
    cases h : lib.marshalMovement m with
    | error e => simp [printMovements, marshalError, h]
    | ok b => simp [printMovements, marshalError, h]
  | cons x ms ih =>
    cases h : lib.marshalMovement x with
    | error e => simp [printMovements, h, ih]
    | ok b => simp [printMovements, h, ih]

theorem stdoutLines_map_movementEvent (lib : Lib) (ms : List Movement) :
    stdoutLines (ms.map (movementEvent lib)) = ms.filterMap (serialized lib) := by
  induction ms with
  | nil => rfl
  | cons m ms ih =>
    cases h : lib.marshalMovement m with
    | error e => simp [movementEvent, serialized, stdoutLines, h, ih, List.filterMap_cons]
    | ok b => simp [movementEvent, serialized, stdoutLines, h, ih, List.filterMap_cons]

theorem printMovements_err_all_ok (lib : Lib) (ms : List Movement) (lines : List String)
    (hser : ms.map lib.marshalMovement = lines.map Except.ok) :
    (printMovements lib ms none).1 = none := by
  induction ms generalizing lines with
  | nil => rfl
  | cons m ms ih =>
    cases lines with
    | nil => simp at hser
    | cons l lines =>
      simp only [List.map_cons, List.cons.injEq] at hser
      simp [printMovements, hser.1, ih lines hser.2]

theorem filterMap_serialized_all_ok (lib : Lib) (ms : List Movement) (lines : List String)
    (hser : ms.map lib.marshalMovement = lines.map Except.ok) :
    ms.filterMap (serialized lib) = lines := by
  induction ms generalizing lines with
  | nil =>
    cases lines with
    | nil => rfl
    | cons l lines => simp at hser
  | cons m ms ih =>
    cases lines with
    | nil => simp at hser
    | cons l lines =>
      simp only [List.map_cons, List.cons.injEq] at hser
      simp [List.filterMap_cons, serialized, hser.1, ih lines hser.2]

/-! ## Login -/

/-- C1: for every username, password and login response with status 200 whose
body decodes, doLogin returns no error and exactly the decoded `data.token`;
when that token is the zero value (absent from the body), it still returns no
error and the empty string. -/
theorem doLogin_ok_returns_token (env : Env) (lib : Lib) (username password : String)
    (client : Client) (res : Response) (loginRes : LoginRes)
    (hdo : env.Do client (loginRequest lib (New username password)) = .ok res)
    (hstatus : res.StatusCode = 200)
    (hdec : lib.decodeLoginRes res.Body = .ok loginRes) :
    (doLogin env lib (New username password) client).err = none ∧
    (doLogin env lib (New username password) client).val = loginRes.Data.Token ∧
    (loginRes.Data.Token = "" →
      (doLogin env lib (New username password) client).err = none ∧
      (doLogin env lib (New username password) client).val = "") := by
  have h : doLogin env lib (New username password) client =
      { val := loginRes.Data.Token, err := none,
        events := [Event.http (loginRequest lib (New username password))] } := by
    simp [doLogin, hdo, hstatus, hdec]
  rw [h]
  refine ⟨rfl, rfl, fun ht => ⟨rfl, ht⟩⟩

/-- C1 witness: status 200 with body `{"data":{"token":"tok-1"}}` gives
`tok-1`, and with body `{"data":{}}` gives the empty token, both without
error. -/
theorem doLogin_ok_returns_token_witness :
    ((doLogin (sampleEnv "alice" "pw" (.ok ⟨200, bodyToken⟩) (.error "unused")) sampleLib
        (New "alice" "pw") GetHTTPTransport).err = none ∧
      (doLogin (sampleEnv "alice" "pw" (.ok ⟨200, bodyToken⟩) (.error "unused")) sampleLib
        (New "alice" "pw") GetHTTPTransport).val = "tok-1") ∧
    ((doLogin (sampleEnv "alice" "pw" (.ok ⟨200, bodyNoToken⟩) (.error "unused")) sampleLib
        (New "alice" "pw") GetHTTPTransport).err = none ∧
      (doLogin (sampleEnv "alice" "pw" (.ok ⟨200, bodyNoToken⟩) (.error "unused")) sampleLib
        (New "alice" "pw") GetHTTPTransport).val = "") :=
  have h := doLogin_ok_returns_token
    (sampleEnv "alice" "pw" (.ok ⟨200, bodyToken⟩) (.error "unused")) sampleLib "alice" "pw"
    GetHTTPTransport ⟨200, bodyToken⟩ { Data := { Token := "tok-1" } } rfl rfl rfl
  ⟨⟨h.1, h.2.1⟩,
   (doLogin_ok_returns_token
      (sampleEnv "alice" "pw" (.ok ⟨200, bodyNoToken⟩) (.error "unused")) sampleLib "alice" "pw"
      GetHTTPTransport ⟨200, bodyNoToken⟩ {} rfl rfl rfl).2.2 rfl⟩

/-- C2: for every login response whose status code is not 200, whatever the
body and whatever the decoder would make of it, doLogin fails with
`error from API: <status>` and the token it returns is the empty string. -/
theorem doLogin_non200_api_error (env : Env) (lib : Lib) (e : Edenred) (client : Client)
    (res : Response)
    (hdo : env.Do client (loginRequest lib e) = .ok res)
    (hstatus : res.StatusCode ≠ 200) :
    (doLogin env lib e client).err = some ("error from API: " ++ toString res.StatusCode) ∧
    (doLogin env lib e client).val = "" := by
  simp [doLogin, hdo, hstatus]

/-- C2 witness: status 401 with the well-formed body `{"data":{"token":"tok-1"}}`
gives `error from API: 401` and the empty token. -/
theorem doLogin_non200_api_error_witness :
    (doLogin (sampleEnv "alice" "pw" (.ok ⟨401, bodyToken⟩) (.error "unused")) sampleLib
        (New "alice" "pw") GetHTTPTransport).err = some "error from API: 401" ∧
    (doLogin (sampleEnv "alice" "pw" (.ok ⟨401, bodyToken⟩) (.error "unused")) sampleLib
        (New "alice" "pw") GetHTTPTransport).val = "" :=
  doLogin_non200_api_error
    (sampleEnv "alice" "pw" (.ok ⟨401, bodyToken⟩) (.error "unused")) sampleLib
    (New "alice" "pw") GetHTTPTransport ⟨401, bodyToken⟩ rfl (by decide)

theorem doLogin_events (env : Env) (lib : Lib) (e : Edenred) (client : Client) :
    (doLogin env lib e client).events = [Event.http (loginRequest lib e)] := by
  cases hdo : env.Do client (loginRequest lib e) with
  | error err => simp [doLogin, hdo]
  | ok res =>
    by_cases hs : res.StatusCode = 200
    · cases hd : lib.decodeLoginRes res.Body <;> simp [doLogin, hdo, hs, hd]
    · simp [doLogin, hdo, hs]

/-! ## Transactions -/

theorem getTransactions_decoded (env : Env) (lib : Lib) (client : Client)
    (authorization : String) (res : Response) (txList : TxMsg)
    (hdo : env.Do client (txRequest authorization) = .ok res)
    (hdec : lib.decodeTxMsg res.Body = .ok txList) :
    getTransactions env lib client authorization =
      { val := Decimal.NewFromFloat txList.Data.Account.AvailableBalance,
        err := (printMovements lib txList.Data.MovementList none).1,
        events := Event.http (txRequest authorization) ::
          txList.Data.MovementList.map (movementEvent lib) } := by
  simp [getTransactions, hdo, hdec, printMovements_events]

theorem stdoutLines_http_cons (req : Request) (es : List Event) :
    stdoutLines (Event.http req :: es) = stdoutLines es := rfl

/-- C3, as stated, fails: the body with `availableBalance` 9007199254740993
decodes, has no movement that could fail, and getTransactions returns without
error the decimal 9007199254740992, which is not equal to 9007199254740993. -/
theorem getTransactions_balance_not_equal_to_body :
    (getTransactions (sampleEnv "alice" "pw" (.error "unused") (.ok ⟨200, bodyLargeBalance⟩))
        sampleLib GetHTTPTransport "tok-1").err = none ∧
    (getTransactions (sampleEnv "alice" "pw" (.error "unused") (.ok ⟨200, bodyLargeBalance⟩))
        sampleLib GetHTTPTransport "tok-1").val = Decimal.New 9007199254740992 0 ∧
    Decimal.Equal (getTransactions
        (sampleEnv "alice" "pw" (.error "unused") (.ok ⟨200, bodyLargeBalance⟩))
        sampleLib GetHTTPTransport "tok-1").val (Decimal.New 9007199254740993 0) = false ∧
    Decimal.String (getTransactions
        (sampleEnv "alice" "pw" (.error "unused") (.ok ⟨200, bodyLargeBalance⟩))
        sampleLib GetHTTPTransport "tok-1").val = "9007199254740992" := by
  refine ⟨by decide, by decide, by decide, by decide⟩

/-- C3, amended: for every transactions response whose body decodes and whose
movements all serialize (to `lines`, position by position), getTransactions
returns no error, returns the decimal that `decimal.NewFromFloat` makes of the
float64 the decoder stored for `data.account.availableBalance`, and writes
exactly `lines` to standard output: one line per movement, in input order. -/
theorem getTransactions_all_serialize (env : Env) (lib : Lib) (client : Client)
    (authorization : String) (res : Response) (txList : TxMsg) (lines : List String)
    (hdo : env.Do client (txRequest authorization) = .ok res)
    (hdec : lib.decodeTxMsg res.Body = .ok txList)
    (hser : txList.Data.MovementList.map lib.marshalMovement = lines.map Except.ok) :
    (getTransactions env lib client authorization).err = none ∧
    (getTransactions env lib client authorization).val =
      Decimal.NewFromFloat txList.Data.Account.AvailableBalance ∧
    stdoutLines (getTransactions env lib client authorization).events = lines ∧
    lines.length = txList.Data.MovementList.length := by
  rw [getTransactions_decoded env lib client authorization res txList hdo hdec]
  refine ⟨printMovements_err_all_ok lib _ lines hser, rfl, ?_, ?_⟩
  · rw [stdoutLines_http_cons, stdoutLines_map_movementEvent]
    exact filterMap_serialized_all_ok lib _ lines hser
  · have h := congrArg List.length hser
    simpa using h.symm

/-- C3 witness: balance 123.45 with the two movements `A`, `B` gives the
decimal 123.45 and the two lines of `A` and `B`, in that order. -/
theorem getTransactions_all_serialize_witness :
    (getTransactions (sampleEnv "alice" "pw" (.error "unused") (.ok ⟨200, bodyTwoMovements⟩))
        sampleLib GetHTTPTransport "tok-1").err = none ∧
    (getTransactions (sampleEnv "alice" "pw" (.error "unused") (.ok ⟨200, bodyTwoMovements⟩))
        sampleLib GetHTTPTransport "tok-1").val = Decimal.New 12345 (-2) ∧
    Decimal.String (getTransactions
        (sampleEnv "alice" "pw" (.error "unused") (.ok ⟨200, bodyTwoMovements⟩))
        sampleLib GetHTTPTransport "tok-1").val = "123.45" ∧
    stdoutLines (getTransactions
        (sampleEnv "alice" "pw" (.error "unused") (.ok ⟨200, bodyTwoMovements⟩))
        sampleLib GetHTTPTransport "tok-1").events = [sampleLine "A", sampleLine "B"] :=
  have h := getTransactions_all_serialize
    (sampleEnv "alice" "pw" (.error "unused") (.ok ⟨200, bodyTwoMovements⟩)) sampleLib
    GetHTTPTransport "tok-1" ⟨200, bodyTwoMovements⟩
    (sampleTx { mant := 8687021468732621, exp := -46 } ["A", "B"])
    [sampleLine "A", sampleLine "B"] rfl rfl rfl
  ⟨h.1, h.2.1.trans (by decide), by decide, h.2.2.1⟩

theorem getTransactions_err_last (env : Env) (lib : Lib) (client : Client)
    (authorization : String) (res : Response) (txList : TxMsg) (ms : List Movement)
    (m : Movement)
    (hdo : env.Do client (txRequest authorization) = .ok res)
    (hdec : lib.decodeTxMsg res.Body = .ok txList)
    (hlast : txList.Data.MovementList = ms ++ [m]) :
    (getTransactions env lib client authorization).err = marshalError lib m := by
  rw [getTransactions_decoded env lib client authorization res txList hdo hdec]
  show (printMovements lib txList.Data.MovementList none).1 = marshalError lib m
  rw [hlast, printMovements_err_append]

/-- C4, as stated, fails: of the three movements `A`, `B`, `C` let the last one
fail to serialize. getTransactions writes the two lines of `A` and `B` and
returns the balance 123.45, but it returns the serializer error with it, and
CheckBalance returns that error without logging the balance. -/
theorem getTransactions_last_failure_returns_error :
    stdoutLines (getTransactions
        (sampleEnv "alice" "pw" (.ok ⟨200, bodyToken⟩) (.ok ⟨200, bodyThreeMovements⟩))
        (failingLib "C") GetHTTPTransport "tok-1").events = [sampleLine "A", sampleLine "B"] ∧
    (getTransactions
        (sampleEnv "alice" "pw" (.ok ⟨200, bodyToken⟩) (.ok ⟨200, bodyThreeMovements⟩))
        (failingLib "C") GetHTTPTransport "tok-1").val = Decimal.New 12345 (-2) ∧
    (getTransactions
        (sampleEnv "alice" "pw" (.ok ⟨200, bodyToken⟩) (.ok ⟨200, bodyThreeMovements⟩))
        (failingLib "C") GetHTTPTransport "tok-1").err = some "simulated marshal failure" ∧
    ¬ (getTransactions
        (sampleEnv "alice" "pw" (.ok ⟨200, bodyToken⟩) (.ok ⟨200, bodyThreeMovements⟩))
        (failingLib "C") GetHTTPTransport "tok-1").err = none ∧
    (CheckBalance
        (sampleEnv "alice" "pw" (.ok ⟨200, bodyToken⟩) (.ok ⟨200, bodyThreeMovements⟩))
        (failingLib "C") (New "alice" "pw")).err = some "simulated marshal failure" ∧
    logMessages (CheckBalance
        (sampleEnv "alice" "pw" (.ok ⟨200, bodyToken⟩) (.ok ⟨200, bodyThreeMovements⟩))
        (failingLib "C") (New "alice" "pw")).events = ["logged in", "error marshalling"] := by
  refine ⟨by decide, by decide, by decide, by decide, by decide, by decide⟩

/-- C4, amended: for every movement list returned by the transactions endpoint
and every choice of which movements fail to serialize, wherever they sit,
getTransactions writes exactly the lines of the movements that do serialize,
in input order, logs one `error marshalling` record in place of each failing
one, and returns the available balance; it returns without error when the
list is empty and when the last movement serializes. -/
theorem getTransactions_skips_failures (env : Env) (lib : Lib) (client : Client)
    (authorization : String) (res : Response) (txList : TxMsg)
    (hdo : env.Do client (txRequest authorization) = .ok res)
    (hdec : lib.decodeTxMsg res.Body = .ok txList) :
    stdoutLines (getTransactions env lib client authorization).events =
      txList.Data.MovementList.filterMap (serialized lib) ∧
    (getTransactions env lib client authorization).events =
      Event.http (txRequest authorization) ::
        txList.Data.MovementList.map (movementEvent lib) ∧
    (getTransactions env lib client authorization).val =
      Decimal.NewFromFloat txList.Data.Account.AvailableBalance ∧
    (txList.Data.MovementList = [] →
      (getTransactions env lib client authorization).err = none) ∧
    (∀ ms m line, txList.Data.MovementList = ms ++ [m] → lib.marshalMovement m = .ok line →
      (getTransactions env lib client authorization).err = none) := by
  have hshape := getTransactions_decoded env lib client authorization res txList hdo hdec
  refine ⟨?_, ?_, ?_, ?_, ?_⟩
  · rw [hshape, stdoutLines_http_cons, stdoutLines_map_movementEvent]
  · rw [hshape]
  · rw [hshape]
  · intro hnil
    rw [hshape]
    show (printMovements lib txList.Data.MovementList none).1 = none
    rw [hnil]
    rfl
  · intro ms m line hlast hok
    rw [getTransactions_err_last env lib client authorization res txList ms m hdo hdec hlast]
    simp [marshalError, hok]

/-- C4 witness: of the three movements `A`, `B`, `C` let `B`, in the middle,
fail to serialize: exactly the two lines of `A` and `C` are written, in that
order, and getTransactions returns without error. The same holds for the two
lines of `B` and `C` when `A`, the first, fails. -/
theorem getTransactions_skips_failures_witness :
    (stdoutLines (getTransactions
        (sampleEnv "alice" "pw" (.ok ⟨200, bodyToken⟩) (.ok ⟨200, bodyThreeMovements⟩))
        (failingLib "B") GetHTTPTransport "tok-1").events = [sampleLine "A", sampleLine "C"] ∧
      (getTransactions
        (sampleEnv "alice" "pw" (.ok ⟨200, bodyToken⟩) (.ok ⟨200, bodyThreeMovements⟩))
        (failingLib "B") GetHTTPTransport "tok-1").err = none) ∧
    (stdoutLines (getTransactions
        (sampleEnv "alice" "pw" (.ok ⟨200, bodyToken⟩) (.ok ⟨200, bodyThreeMovements⟩))
        (failingLib "A") GetHTTPTransport "tok-1").events = [sampleLine "B", sampleLine "C"] ∧
      (getTransactions
        (sampleEnv "alice" "pw" (.ok ⟨200, bodyToken⟩) (.ok ⟨200, bodyThreeMovements⟩))
        (failingLib "A") GetHTTPTransport "tok-1").err = none) :=
  have hB := getTransactions_skips_failures
    (sampleEnv "alice" "pw" (.ok ⟨200, bodyToken⟩) (.ok ⟨200, bodyThreeMovements⟩))
    (failingLib "B") GetHTTPTransport "tok-1" ⟨200, bodyThreeMovements⟩
    (sampleTx { mant := 8687021468732621, exp := -46 } ["A", "B", "C"]) rfl rfl
  have hA := getTransactions_skips_failures
    (sampleEnv "alice" "pw" (.ok ⟨200, bodyToken⟩) (.ok ⟨200, bodyThreeMovements⟩))
    (failingLib "A") GetHTTPTransport "tok-1" ⟨200, bodyThreeMovements⟩
    (sampleTx { mant := 8687021468732621, exp := -46 } ["A", "B", "C"]) rfl rfl
  ⟨⟨hB.1.trans (by decide),
    hB.2.2.2.2 [namedMovement "A", namedMovement "B"] (namedMovement "C") (sampleLine "C")
      rfl rfl⟩,
   ⟨hA.1.trans (by decide),
    hA.2.2.2.2 [namedMovement "A", namedMovement "B"] (namedMovement "C") (sampleLine "C")
      rfl rfl⟩⟩

/-- C6: for every transactions response whose body does not decode into TxMsg,
getTransactions fails with `error decoding json: <cause>`, returns the zero
decimal, and writes no line to standard output. -/
theorem getTransactions_decode_error (env : Env) (lib : Lib) (client : Client)
    (authorization : String) (res : Response) (cause : String)
    (hdo : env.Do client (txRequest authorization) = .ok res)
    (hdec : lib.decodeTxMsg res.Body = .error cause) :
    (getTransactions env lib client authorization).err =
      some ("error decoding json: " ++ cause) ∧
    (getTransactions env lib client authorization).val = {} ∧
    stdoutLines (getTransactions env lib client authorization).events = [] ∧
    (getTransactions env lib client authorization).events =
      [Event.http (txRequest authorization)] := by
  simp [getTransactions, hdo, hdec, stdoutLines]

/-- C6 witness: the body `{"data":` cut short gives
`error decoding json: unexpected EOF`, the zero decimal and no line. -/
theorem getTransactions_decode_error_witness :
    (getTransactions (sampleEnv "alice" "pw" (.error "unused") (.ok ⟨200, bodyTruncated⟩))
        sampleLib GetHTTPTransport "tok-1").err = some "error decoding json: unexpected EOF" ∧
    (getTransactions (sampleEnv "alice" "pw" (.error "unused") (.ok ⟨200, bodyTruncated⟩))
        sampleLib GetHTTPTransport "tok-1").val = {} ∧
    stdoutLines (getTransactions
        (sampleEnv "alice" "pw" (.error "unused") (.ok ⟨200, bodyTruncated⟩))
        sampleLib GetHTTPTransport "tok-1").events = [] :=
  have h := getTransactions_decode_error
    (sampleEnv "alice" "pw" (.error "unused") (.ok ⟨200, bodyTruncated⟩)) sampleLib
    GetHTTPTransport "tok-1" ⟨200, bodyTruncated⟩ "unexpected EOF" rfl rfl
  ⟨h.1, h.2.1, h.2.2.1⟩

/-- C10: getTransactions never reads the status code. Two transports that
answer the transactions request with the same body, whatever the two status
codes, give the same balance, the same error and the same events; and a
response of any status whose body decodes to the zero TxMsg (as `{}` does)
gives no error, the balance 0 and no line. -/
theorem getTransactions_ignores_status (env₁ env₂ : Env) (lib : Lib) (client : Client)
    (authorization : String) (res₁ res₂ : Response)
    (hdo₁ : env₁.Do client (txRequest authorization) = .ok res₁)
    (hdo₂ : env₂.Do client (txRequest authorization) = .ok res₂)
    (hbody : res₁.Body = res₂.Body) :
    (getTransactions env₁ lib client authorization).val =
      (getTransactions env₂ lib client authorization).val ∧
    (getTransactions env₁ lib client authorization).err =
      (getTransactions env₂ lib client authorization).err ∧
    (getTransactions env₁ lib client authorization).events =
      (getTransactions env₂ lib client authorization).events ∧
    (lib.decodeTxMsg res₁.Body = .ok {} →
      (getTransactions env₁ lib client authorization).err = none ∧
      (getTransactions env₁ lib client authorization).val = { value := 0, exp := 0 } ∧
      stdoutLines (getTransactions env₁ lib client authorization).events = []) := by
  have h : getTransactions env₁ lib client authorization =
      getTransactions env₂ lib client authorization := by
    simp [getTransactions, hdo₁, hdo₂, hbody]
  refine ⟨by rw [h], by rw [h], by rw [h], fun hdec => ?_⟩
  rw [getTransactions_decoded env₁ lib client authorization res₁ {} hdo₁ hdec]
  exact ⟨rfl, rfl, rfl⟩

/-- C10 witness: the body `{}` answered with status 200 and with status 401
gives the same result, which is no error, balance 0 and no line. -/
theorem getTransactions_ignores_status_witness :
    (getTransactions (sampleEnv "alice" "pw" (.error "unused") (.ok ⟨200, bodyEmptyObject⟩))
        sampleLib GetHTTPTransport "tok-1").val =
      (getTransactions (sampleEnv "alice" "pw" (.error "unused") (.ok ⟨401, bodyEmptyObject⟩))
        sampleLib GetHTTPTransport "tok-1").val ∧
    (getTransactions (sampleEnv "alice" "pw" (.error "unused") (.ok ⟨200, bodyEmptyObject⟩))
        sampleLib GetHTTPTransport "tok-1").err =
      (getTransactions (sampleEnv "alice" "pw" (.error "unused") (.ok ⟨401, bodyEmptyObject⟩))
        sampleLib GetHTTPTransport "tok-1").err ∧
    (getTransactions (sampleEnv "alice" "pw" (.error "unused") (.ok ⟨401, bodyEmptyObject⟩))
        sampleLib GetHTTPTransport "tok-1").err = none ∧
    Decimal.String (getTransactions
        (sampleEnv "alice" "pw" (.error "unused") (.ok ⟨401, bodyEmptyObject⟩))
        sampleLib GetHTTPTransport "tok-1").val = "0" ∧
    stdoutLines (getTransactions
        (sampleEnv "alice" "pw" (.error "unused") (.ok ⟨401, bodyEmptyObject⟩))
        sampleLib GetHTTPTransport "tok-1").events = [] :=
  have h := getTransactions_ignores_status
    (sampleEnv "alice" "pw" (.error "unused") (.ok ⟨401, bodyEmptyObject⟩))
    (sampleEnv "alice" "pw" (.error "unused") (.ok ⟨200, bodyEmptyObject⟩)) sampleLib
    GetHTTPTransport "tok-1" ⟨401, bodyEmptyObject⟩ ⟨200, bodyEmptyObject⟩ rfl rfl rfl
  ⟨h.1.symm, h.2.1.symm, (h.2.2.2 rfl).1, by decide, (h.2.2.2 rfl).2.2⟩

/-! ## Orchestration -/

theorem stdoutLines_append (a b : List Event) :
    stdoutLines (a ++ b) = stdoutLines a ++ stdoutLines b := by
  induction a with
  | nil => rfl
  | cons x a ih => cases x <;> simp [stdoutLines, ih]

theorem httpRequests_append (a b : List Event) :
    httpRequests (a ++ b) = httpRequests a ++ httpRequests b := by
  induction a with
  | nil => rfl
  | cons x a ih => cases x <;> simp [httpRequests, ih]

theorem logMessages_append (a b : List Event) :
    logMessages (a ++ b) = logMessages a ++ logMessages b := by
  induction a with
  | nil => rfl
  | cons x a ih => cases x <;> simp [logMessages, ih]

theorem txRequest_ne_loginRequest (lib : Lib) (e : Edenred) (authorization : String) :
    txRequest authorization ≠ loginRequest lib e := by
  intro h
  have hm := congrArg Request.Method h
  simp [txRequest, loginRequest, Request.setHeader] at hm

theorem logMessages_movementEvents (lib : Lib) (ms : List Movement) (msg : String)
    (hmsg : msg ∈ logMessages (ms.map (movementEvent lib))) : msg = "error marshalling" := by
  induction ms with
  | nil => simp [logMessages] at hmsg
  | cons m ms ih =>
    cases h : lib.marshalMovement m with
    | error e =>
      simp only [List.map_cons, movementEvent, h, logMessages, List.mem_cons] at hmsg
      rcases hmsg with hmsg | hmsg
      · exact hmsg
      · exact ih hmsg
    | ok b =>
      simp only [List.map_cons, movementEvent, h, logMessages] at hmsg
      exact ih hmsg

theorem getTransactions_logMessages (env : Env) (lib : Lib) (client : Client)
    (authorization : String) (msg : String)
    (hmsg : msg ∈ logMessages (getTransactions env lib client authorization).events) :
    msg = "error marshalling" := by
  cases hdo : env.Do client (txRequest authorization) with
  | error err => simp [getTransactions, hdo, logMessages] at hmsg
  | ok res =>
    cases hdec : lib.decodeTxMsg res.Body with
    | error err => simp [getTransactions, hdo, hdec, logMessages] at hmsg
    | ok txList =>
      rw [getTransactions_decoded env lib client authorization res txList hdo hdec] at hmsg
      exact logMessages_movementEvents lib _ msg hmsg

/-- C7: CheckBalance runs login, then fetch, and stops at the first failure.
When doLogin fails, CheckBalance returns that error, the login request is the
only request sent (no transactions request), no line is written and the
`retrieved all transactions` record is not logged. When doLogin succeeds and
getTransactions fails, CheckBalance returns that error and again does not log
the `retrieved all transactions` record. -/
theorem CheckBalance_stops_at_first_failure (env : Env) (lib : Lib) (e : Edenred) :
    (∀ err, (doLogin env lib e GetHTTPTransport).err = some err →
      (CheckBalance env lib e).err = some err ∧
      httpRequests (CheckBalance env lib e).events = [loginRequest lib e] ∧
      (∀ authorization, txRequest authorization ∉ httpRequests (CheckBalance env lib e).events) ∧
      stdoutLines (CheckBalance env lib e).events = [] ∧
      "retrieved all transactions" ∉ logMessages (CheckBalance env lib e).events) ∧
    ((doLogin env lib e GetHTTPTransport).err = none →
      ∀ err, (getTransactions env lib GetHTTPTransport
          (doLogin env lib e GetHTTPTransport).val).err = some err →
        (CheckBalance env lib e).err = some err ∧
        "retrieved all transactions" ∉ logMessages (CheckBalance env lib e).events) := by
  constructor
  · intro err hlogin
    have hcb : CheckBalance env lib e =
        { val := (), err := some err,
          events := Event.newTransport :: [Event.http (loginRequest lib e)] ++
            [Event.log Level.error [("error", err)] "error logging in"] } := by
      simp [CheckBalance, hlogin, doLogin_events]
    rw [hcb]
    refine ⟨rfl, rfl, ?_, rfl, by simp [logMessages]⟩
    intro authorization hmem
    simp only [List.singleton_append, List.cons_append, List.nil_append, httpRequests,
      List.mem_singleton] at hmem
    exact txRequest_ne_loginRequest lib e authorization hmem
  · intro hlogin err htx
    have hcb : CheckBalance env lib e =
        { val := (), err := some err,
          events := Event.newTransport :: [Event.http (loginRequest lib e)] ++
            [Event.log Level.info [] "logged in"] ++
            (getTransactions env lib GetHTTPTransport
              (doLogin env lib e GetHTTPTransport).val).events } := by
      simp [CheckBalance, hlogin, htx, doLogin_events]
    rw [hcb]
    refine ⟨rfl, ?_⟩
    intro hmem
    simp only [List.singleton_append, List.cons_append, List.nil_append, logMessages,
      List.mem_cons] at hmem
    rcases hmem with hmem | hmem
    · exact absurd hmem (by decide)
    · exact absurd (getTransactions_logMessages env lib _ _ _ hmem) (by decide)

/-- C7 witness: a login answered with status 500 makes CheckBalance return
`error from API: 500` after the login request alone; a transactions body that
is not JSON makes it return `error decoding json: unexpected EOF`. -/
theorem CheckBalance_stops_at_first_failure_witness :
    ((CheckBalance (sampleEnv "alice" "pw" (.ok ⟨500, bodyToken⟩) (.ok ⟨200, bodyTwoMovements⟩))
        sampleLib (New "alice" "pw")).err = some "error from API: 500" ∧
      httpRequests (CheckBalance
        (sampleEnv "alice" "pw" (.ok ⟨500, bodyToken⟩) (.ok ⟨200, bodyTwoMovements⟩))
        sampleLib (New "alice" "pw")).events = [loginRequest sampleLib (New "alice" "pw")] ∧
      stdoutLines (CheckBalance
        (sampleEnv "alice" "pw" (.ok ⟨500, bodyToken⟩) (.ok ⟨200, bodyTwoMovements⟩))
        sampleLib (New "alice" "pw")).events = []) ∧
    (CheckBalance (sampleEnv "alice" "pw" (.ok ⟨200, bodyToken⟩) (.ok ⟨200, bodyTruncated⟩))
        sampleLib (New "alice" "pw")).err = some "error decoding json: unexpected EOF" ∧
    "retrieved all transactions" ∉ logMessages (CheckBalance
        (sampleEnv "alice" "pw" (.ok ⟨200, bodyToken⟩) (.ok ⟨200, bodyTruncated⟩))
        sampleLib (New "alice" "pw")).events :=
  have h₁ := (CheckBalance_stops_at_first_failure
    (sampleEnv "alice" "pw" (.ok ⟨500, bodyToken⟩) (.ok ⟨200, bodyTwoMovements⟩))
    sampleLib (New "alice" "pw")).1 "error from API: 500" (by decide)
  have h₂ := (CheckBalance_stops_at_first_failure
    (sampleEnv "alice" "pw" (.ok ⟨200, bodyToken⟩) (.ok ⟨200, bodyTruncated⟩))
    sampleLib (New "alice" "pw")).2 (by decide) "error decoding json: unexpected EOF"
    (by decide)
  ⟨⟨h₁.1, h₁.2.1, h₁.2.2.2.1⟩, h₂.1, h₂.2⟩

/-! ## The entry point -/

theorem main_missing_credentials (env : Env) (lib : Lib)
    (hmissing : env.Getenv "USER" = "" ∨ env.Getenv "PASS" = "") :
    main env lib =
      { events := [Event.log Level.info [] "[observer][edenred] starting",
                   Event.log Level.error [] "error: USER or PASS not set"],
        exitCode := 0 } := by
  simp [main, hmissing]

/-- C8: for every environment in which USER is empty or unset, or PASS is, main
ends without constructing a client (neither `edenred.New` nor
`GetHTTPTransport` is called) and without any HTTP request; it writes no line
either. -/
theorem main_missing_credentials_no_network (env : Env) (lib : Lib)
    (hmissing : env.Getenv "USER" = "" ∨ env.Getenv "PASS" = "") :
    httpRequests (main env lib).events = [] ∧
    (∀ u p, Event.newClient u p ∉ (main env lib).events) ∧
    Event.newTransport ∉ (main env lib).events ∧
    (∀ req, Event.http req ∉ (main env lib).events) ∧
    stdoutLines (main env lib).events = [] := by
  rw [main_missing_credentials env lib hmissing]
  refine ⟨rfl, ?_, by decide, ?_, rfl⟩
  · intro u p h
    simp at h
  · intro req h
    simp at h

/-- C8 witness: with PASS unset, and a network that would answer, main sends
no request and constructs no client. -/
theorem main_missing_credentials_no_network_witness :
    httpRequests (main (sampleEnv "alice" "" (.ok ⟨200, bodyToken⟩)
      (.ok ⟨200, bodyTwoMovements⟩)) sampleLib).events = [] ∧
    Event.newTransport ∉ (main (sampleEnv "alice" "" (.ok ⟨200, bodyToken⟩)
      (.ok ⟨200, bodyTwoMovements⟩)) sampleLib).events :=
  have h := main_missing_credentials_no_network
    (sampleEnv "alice" "" (.ok ⟨200, bodyToken⟩) (.ok ⟨200, bodyTwoMovements⟩)) sampleLib
    (Or.inr rfl)
  ⟨h.1, h.2.2.1⟩

/-- C9, as stated, fails: with USER unset the exit status of the program is
not non-zero. -/
theorem main_missing_user_exit_status_not_nonzero :
    (sampleEnv "" "pw" (.ok ⟨200, bodyToken⟩) (.ok ⟨200, bodyTwoMovements⟩)).Getenv "USER" = "" ∧
    ¬ (main (sampleEnv "" "pw" (.ok ⟨200, bodyToken⟩) (.ok ⟨200, bodyTwoMovements⟩))
        sampleLib).exitCode ≠ 0 := by
  decide

/-- C9, amended: when the user identifier or the password is absent from the
environment, the program logs the error-level record
`error: USER or PASS not set` right after its starting record, does nothing
else, and ends with exit status 0. -/
theorem main_missing_credentials_logs_error_exits_zero (env : Env) (lib : Lib)
    (hmissing : env.Getenv "USER" = "" ∨ env.Getenv "PASS" = "") :
    (main env lib).events =
      [Event.log Level.info [] "[observer][edenred] starting",
       Event.log Level.error [] "error: USER or PASS not set"] ∧
    (main env lib).exitCode = 0 := by
  rw [main_missing_credentials env lib hmissing]
  exact ⟨rfl, rfl⟩

/-- C9 witness: USER unset. -/
theorem main_missing_credentials_logs_error_exits_zero_witness :
    (main (sampleEnv "" "pw" (.ok ⟨200, bodyToken⟩) (.ok ⟨200, bodyTwoMovements⟩))
      sampleLib).events =
      [Event.log Level.info [] "[observer][edenred] starting",
       Event.log Level.error [] "error: USER or PASS not set"] ∧
    (main (sampleEnv "" "pw" (.ok ⟨200, bodyToken⟩) (.ok ⟨200, bodyTwoMovements⟩))
      sampleLib).exitCode = 0 :=
  main_missing_credentials_logs_error_exits_zero
    (sampleEnv "" "pw" (.ok ⟨200, bodyToken⟩) (.ok ⟨200, bodyTwoMovements⟩)) sampleLib
    (Or.inl rfl)

theorem main_summary_line (env : Env) (lib : Lib)
    (huser : env.Getenv "USER" ≠ "") (hpass : env.Getenv "PASS" ≠ "")
    (hcheck : (CheckBalance env lib (New (env.Getenv "USER") (env.Getenv "PASS"))).err = none) :
    (main env lib).events.getLast? =
      some (Event.log Level.info []
        "[observer][edenred] current balance for Edenred Meal card 0") := by
  have hline : ("[observer][edenred] current balance for Edenred Meal card" ++ " " ++
      Decimal.String {}) = "[observer][edenred] current balance for Edenred Meal card 0" := by
    decide
  have hmain : (main env lib).events =
      (Event.log Level.info [] "[observer][edenred] starting" ::
        Event.newClient (env.Getenv "USER") (env.Getenv "PASS") ::
        (CheckBalance env lib (New (env.Getenv "USER") (env.Getenv "PASS"))).events) ++
      [Event.log Level.info []
        "[observer][edenred] current balance for Edenred Meal card 0"] := by
    rw [← hline]
    simp [main, huser, hpass, hcheck]
  rw [hmain, List.getLast?_concat]

/-- C5: on the successful run with credentials set, login answered with a
token and the transactions endpoint answering balance 123.45, getTransactions
returns 123.45 and CheckBalance logs it in its `retrieved all transactions`
record, but the final summary line of main reads
`... current balance for Edenred Meal card 0`. -/
theorem main_summary_line_reports_zero :
    Decimal.String (getTransactions
        (sampleEnv "alice" "pw" (.ok ⟨200, bodyToken⟩) (.ok ⟨200, bodyTwoMovements⟩))
        sampleLib GetHTTPTransport "tok-1").val = "123.45" ∧
    (CheckBalance (sampleEnv "alice" "pw" (.ok ⟨200, bodyToken⟩) (.ok ⟨200, bodyTwoMovements⟩))
        sampleLib (New "alice" "pw")).err = none ∧
    (CheckBalance (sampleEnv "alice" "pw" (.ok ⟨200, bodyToken⟩) (.ok ⟨200, bodyTwoMovements⟩))
        sampleLib (New "alice" "pw")).events.getLast? =
      some (Event.log Level.info [("balance", "123.45")] "retrieved all transactions") ∧
    (main (sampleEnv "alice" "pw" (.ok ⟨200, bodyToken⟩) (.ok ⟨200, bodyTwoMovements⟩))
        sampleLib).events.getLast? =
      some (Event.log Level.info []
        "[observer][edenred] current balance for Edenred Meal card 0") := by
  refine ⟨by decide, by decide, by decide, by decide⟩

end BetterEdenred
